import Mathlib

/-!
Verification of the Mantle_Faucet service (src/main.go) against its
specification.  The single HTTP handler `handleWithdraw` is embedded as a
pure Lean function over an oracle environment `ChainEnv` that supplies the
results of every external chain-client call (dial, balance, nonce, fees,
chain id, gas estimate, signing, broadcast) for one request.  Machine
floating point is modelled by exact rationals together with an abstract
rounding function `rnd`, which theorems constrain only through the fact
that binary64 round-to-nearest is the identity on representable values.
-/

namespace MantleFaucet

/-- Go byte-level lower-casing used by strconv: `c | 0x20`. -/
def goLower (c : Char) : Char := Char.ofNat (c.toNat ||| 32)

def isDigitChar (c : Char) : Bool := decide ('0' ≤ c ∧ c ≤ '9')

/-- Letter part of a hexadecimal digit, after `goLower`. -/
def isHexLetter (c : Char) : Bool := decide ('a' ≤ goLower c ∧ goLower c ≤ 'f')

def digitVal (c : Char) : Nat :=
  if isDigitChar c then c.toNat - '0'.toNat else (goLower c).toNat - 'a'.toNat + 10

/-! ## go-ethereum common.IsHexAddress (address syntax validation) -/

/-- common.has0xPrefix: at least two bytes, "0x" or "0X". -/
def has0x : List Char → Bool
  | '0' :: c :: _ => decide (c = 'x' ∨ c = 'X')
  | _ => false

/-- common.isHexCharacter. -/
def isHexCharacter (c : Char) : Bool :=
  decide (('0' ≤ c ∧ c ≤ '9') ∨ ('a' ≤ c ∧ c ≤ 'f') ∨ ('A' ≤ c ∧ c ≤ 'F'))

/-- common.isHex: even length, all hex characters. -/
def isHex (s : List Char) : Bool :=
  s.length % 2 = 0 && s.all isHexCharacter

/-- common.IsHexAddress: after stripping an optional 0x prefix, exactly
2*20 hex characters. -/
def isHexAddress (s : String) : Bool :=
  let cs := s.data
  let cs := if has0x cs then cs.drop 2 else cs
  cs.length = 40 && isHex cs

/-- common.HexToAddress on an already validated address string: the
canonical (lower-case, prefix-free) 20-byte value it denotes. -/
def hexToAddress (s : String) : String :=
  let cs := s.data
  let cs := if has0x cs then cs.drop 2 else cs
  String.mk (cs.map goLower)

/-! ## strconv.ParseFloat (bitSize 64)

The exact value of the accepted numeral is produced as a rational; the
binary64 rounding that ParseFloat then performs is kept abstract (see
`FloatRepresentable`).  Syntax, the special inf/nan forms, underscore
legality and the overflow-is-an-error rule follow strconv's atof. -/

/-- The result of strconv.ParseFloat, before binary64 rounding. -/
inductive GoFloat where
  | nan
  | inf (neg : Bool)
  | finite (val : ℚ)
deriving DecidableEq, Repr

/-- strconv's commonPrefixLenIgnoreCase (the pattern is lower case). -/
def commonPrefLen : List Char → List Char → Nat
  | c :: cs, d :: ds =>
      let c := if 'A' ≤ c ∧ c ≤ 'Z' then Char.ofNat (c.toNat + 32) else c
      if c = d then 1 + commonPrefLen cs ds else 0
  | _, _ => 0

/-- strconv's `special`: the inf/infinity/nan forms, with the number of
characters consumed.  A sign falls through to the infinity check only. -/
def specialFloat (s : List Char) : Option (GoFloat × Nat) :=
  match s with
  | [] => none
  | c :: rest =>
    if c = '+' ∨ c = '-' then
      let n := commonPrefLen rest ['i', 'n', 'f', 'i', 'n', 'i', 't', 'y']
      if n = 3 ∨ n = 8 then some (.inf (c = '-'), 1 + n) else none
    else if c = 'i' ∨ c = 'I' then
      let n := commonPrefLen s ['i', 'n', 'f', 'i', 'n', 'i', 't', 'y']
      if n = 3 ∨ n = 8 then some (.inf false, n) else none
    else if c = 'n' ∨ c = 'N' then
      if commonPrefLen s ['n', 'a', 'n'] = 3 then some (.nan, 3) else none
    else none

/-- State of strconv readFloat's mantissa loop. -/
structure MantAcc where
  m : Nat
  nd : Nat
  dp : Int
  sawdot : Bool
  sawdigits : Bool
  und : Bool
deriving Repr

/-- strconv readFloat's mantissa loop: digits (of `base`), one dot,
underscores; leading zeros only adjust the decimal-point position. -/
def mantLoop (base : Nat) : List Char → MantAcc → MantAcc × List Char
  | [], acc => (acc, [])
  | c :: rest, acc =>
    if c = '_' then mantLoop base rest { acc with und := true }
    else if c = '.' then
      if acc.sawdot then (acc, c :: rest)
      else mantLoop base rest { acc with sawdot := true, dp := acc.nd }
    else if isDigitChar c || (base = 16 && isHexLetter c) then
      if c = '0' ∧ acc.nd = 0 then
        mantLoop base rest { acc with sawdigits := true, dp := acc.dp - 1 }
      else
        mantLoop base rest
          { acc with sawdigits := true, nd := acc.nd + 1, m := acc.m * base + digitVal c }
    else (acc, c :: rest)

/-- strconv readFloat's exponent-digit loop (digits and underscores; the
accumulated exponent saturates below 10000 as in Go). -/
def expDigits : List Char → Int → Bool → Int × List Char × Bool
  | [], e, und => (e, [], und)
  | c :: rest, e, und =>
    if isDigitChar c then
      expDigits rest (if e < 10000 then e * 10 + (digitVal c : Int) else e) und
    else if c = '_' then expDigits rest e true
    else (e, c :: rest, und)

/-- strconv underscoreOK's scan: `saw` is the class of the previous
character: 0 a digit (or base marker), _ an underscore, ^ the start,
! anything else. -/
def undLoop (hex : Bool) : List Char → Char → Bool
  | [], saw => saw ≠ '_'
  | c :: rest, saw =>
    if isDigitChar c || (hex && isHexLetter c) then undLoop hex rest '0'
    else if c = '_' then (if saw = '0' then undLoop hex rest '_' else false)
    else if saw = '_' then false
    else undLoop hex rest '!'

/-- strconv's underscoreOK: underscores only between digits (the base
marker counting as a digit). -/
def underscoreOK (s : List Char) : Bool :=
  let s1 := match s with
    | c :: rest => if c = '-' ∨ c = '+' then rest else s
    | [] => s
  match s1 with
  | '0' :: b :: rest =>
    if goLower b = 'b' ∨ goLower b = 'o' ∨ goLower b = 'x' then
      undLoop (goLower b = 'x') rest '0'
    else undLoop false s1 '^'
  | _ => undLoop false s1 '^'

/-- Outcome of strconv readFloat with the mantissa kept exact:
the signed rational value and the number of characters consumed. -/
def readFloat (s : List Char) : Option (ℚ × Nat) :=
  let signRes : Bool × List Char × Nat :=
    match s with
    | '+' :: rest => (false, rest, 1)
    | '-' :: rest => (true, rest, 1)
    | _ => (false, s, 0)
  let neg := signRes.1
  let s1 := signRes.2.1
  let n0 := signRes.2.2
  -- hex marker requires a further character after "0x" (Go: i+2 < len(s))
  let hexRes : Bool × List Char × Nat :=
    match s1 with
    | '0' :: x :: c :: rest =>
        if goLower x = 'x' then (true, c :: rest, 2) else (false, s1, 0)
    | _ => (false, s1, 0)
  let hex := hexRes.1
  let s2 := hexRes.2.1
  let n1 := hexRes.2.2
  let base : Nat := if hex then 16 else 10
  let mres := mantLoop base s2 ⟨0, 0, 0, false, false, false⟩
  let acc := mres.1
  let s3 := mres.2
  if acc.sawdigits = false then none
  else
    let dp0 : Int := if acc.sawdot then acc.dp else (acc.nd : Int)
    let dp1 : Int := if hex then dp0 * 4 else dp0
    let n2 := n0 + n1 + (s2.length - s3.length)
    let finish : Int → Nat → Bool → Option (ℚ × Nat) := fun dp n und =>
      if und ∧ underscoreOK (s.take n) = false then none
      else
        let expo : Int := if hex then dp - 4 * (acc.nd : Int) else dp - (acc.nd : Int)
        let baseQ : ℚ := if hex then 2 else 10
        some ((if neg then (-1 : ℚ) else 1) * (acc.m : ℚ) * baseQ ^ expo, n)
    match s3 with
    | [] => if hex then none else finish dp1 n2 acc.und
    | c :: rest =>
      if goLower c = (if hex then 'p' else 'e') then
        match rest with
        | [] => none
        | d :: rest2 =>
          let eres : Int × List Char × Nat :=
            if d = '+' then (1, rest2, 1)
            else if d = '-' then (-1, rest2, 1)
            else (1, d :: rest2, 0)
          let esign := eres.1
          let erest := eres.2.1
          let ns := eres.2.2
          match erest with
          | [] => none
          | e0 :: _ =>
            if isDigitChar e0 then
              let dres := expDigits erest 0 acc.und
              let e := dres.1
              let rest3 := dres.2.1
              let und2 := dres.2.2
              finish (dp1 + e * esign) (n2 + 1 + ns + (erest.length - rest3.length)) und2
            else none
      else if hex then none
      else finish dp1 n2 acc.und

/-- Binary64 overflow cutoff: a decimal whose exact value is at least
2^1024 - 2^970 in magnitude rounds to infinity, which ParseFloat reports
as a range error (a non-nil error to the caller). -/
def ovfCut : ℚ := 179769313486231580793728971405303415079934132710037826936173778980444968292764750946649017977587207096330286416692887910946555547851940402630657488671505820681908902000708383676273854845817711531764475730270069855571366959622842914819860834936475292719074168444365510704342711559699508093042880177904174497792

set_option exponentiation.threshold 1100 in
/-- The literal above is 2^1024 - 2^970. -/
theorem ovfCut_eq : ovfCut = 2 ^ 1024 - 2 ^ 970 := by norm_num [ovfCut]

/-- strconv.ParseFloat(s, 64), with the finite value kept exact.  `none`
is any non-nil error: syntax errors and the overflow range error (the
handler treats every non-nil error alike). -/
def parseGoFloat (s : String) : Option GoFloat :=
  let cs := s.data
  match specialFloat cs with
  | some (v, n) => if n = cs.length then some v else none
  | none =>
    match readFloat cs with
    | some (q, n) =>
        if n = cs.length then
          if ovfCut ≤ |q| then none else some (.finite q)
        else none
    | none => none

/-- The set of values binary64 round-to-nearest leaves fixed: an integer
mantissa of at most 53 bits scaled by a power of two in the normal and
subnormal exponent range. -/
def FloatRepresentable (q : ℚ) : Prop :=
  ∃ m e : ℤ, m.natAbs ≤ 2 ^ 53 - 1 ∧ -1074 ≤ e ∧ e ≤ 971 ∧ q = (m : ℚ) * (2 : ℚ) ^ e

/-- ParseFloat's correct rounding of the exact decimal value to binary64,
with the abstract rounding function `rnd`. -/
def roundGoFloat (rnd : ℚ → ℚ) : GoFloat → GoFloat
  | .nan => .nan
  | .inf n => .inf n
  | .finite q => .finite (rnd q)

/-! ## The handler's big.Float amount pipeline (main.go lines 102-111) -/

/-- A big.Float value in the handler: finite or infinite (big.Float has
no NaN). -/
inductive BigFloat where
  | inf (neg : Bool)
  | finite (val : ℚ)
deriving DecidableEq, Repr

/-- big.NewFloat(x): panics when x is NaN. -/
def bigNewFloat : GoFloat → Option BigFloat
  | .nan => none
  | .inf n => some (.inf n)
  | .finite q => some (.finite q)

/-- amount.Mul(amount, big.NewFloat(1e18)) at 53-bit precision: the 1e18
constant and the product are each rounded by `rnd`; infinity propagates. -/
def bigFloatMulE18 (rnd : ℚ → ℚ) : BigFloat → BigFloat
  | .inf n => .inf n
  | .finite q => .finite (rnd (q * rnd ((10 : ℚ) ^ (18 : ℕ))))

/-- Truncation toward zero of a rational (Int.tdiv is T-division, the
rounding big.Float.Int performs). -/
def ratTrunc (q : ℚ) : Int := Int.tdiv q.num (q.den : Int)

/-- amount.Int(intAmount): truncates a finite value toward zero; for an
infinity big.Float.Int returns nil without storing, so intAmount keeps
its initial value 0. -/
def bigFloatInt : BigFloat → Int
  | .inf _ => 0
  | .finite q => ratTrunc q

/-- The whole amount normalization (lines 103-111): ParseFloat, binary64
rounding, multiplication by 1e18, truncation to an integer; `none` when
ParseFloat errors or big.NewFloat panics on NaN. -/
def amountToWei (rnd : ℚ → ℚ) (s : String) : Option Int :=
  (parseGoFloat s).bind fun fv =>
    (bigNewFloat (roundGoFloat rnd fv)).map fun f => bigFloatInt (bigFloatMulE18 rnd f)

/-! ## Data model (main.go lines 22-47) -/

/-- The JSON request body bound by gin. -/
structure RequestBody where
  network : String
  address : String
  amount : String
deriving DecidableEq, Repr

/-- An entry of the cooldown ledger: timestamps are Go time.Time instants
in nanoseconds. -/
structure Account where
  address : String
  lastWithdrawTime : Int
deriving DecidableEq, Repr

/-- The accounts map: Go map[string]Account. -/
abbrev Accounts := String → Option Account

/-- Go map assignment: insert or overwrite the value at one key. -/
def mapInsert (m : Accounts) (k : String) (v : Account) : Accounts :=
  fun a => if a = k then some v else m a

/-- The configuration values initConfig loads once at start. -/
structure Config where
  integerDefault : Int
  privateKeyDefault : String
  explorerUrlDefault : String
deriving Repr

/-- time.Hour in nanoseconds. -/
def hourNanos : Int := 3600000000000

/-- The ethereum.CallMsg built for gas estimation. -/
structure CallMsg where
  frm : String
  toAddr : String
  gasFeeCap : Int
  gasTipCap : Int
  value : Int
deriving DecidableEq, Repr

/-- The DynamicFeeTx the handler assembles (Data is always empty). -/
structure TxData where
  chainID : Int
  nonce : Nat
  gasFeeCap : Int
  gasTipCap : Int
  gas : Nat
  toAddr : String
  value : Int
deriving DecidableEq, Repr

/-- A signed transaction as the handler observes it: its hash's hex
string is all the success response uses. -/
structure SignedTx where
  hashHex : String
deriving DecidableEq, Repr

/-- Oracle for everything outside the handler during one request: the
JSON binder's verdict, the two time.Now() readings, and each chain-client
call's result.  sendTransaction receives the possibly nil signed
transaction because the handler discards the signing error. -/
structure ChainEnv where
  bind : Except String RequestBody
  now : Int
  nowAtRecord : Int
  dial : String → Except Unit Unit
  hexToECDSA : String → Except Unit Unit
  pubkeyCastOk : Bool
  fromAddress : String
  balanceAt : String → Except Unit Int
  pendingNonceAt : String → Except Unit Nat
  suggestGasPrice : Except Unit Int
  suggestGasTipCap : Except Unit Int
  networkID : Except Unit Int
  estimateGas : CallMsg → Except Unit Nat
  signTx : TxData → Except Unit SignedTx
  sendTransaction : Option SignedTx → Except Unit Unit

/-- What the handler writes to the HTTP response: a JSON error object, the
success object, nothing at all (the bare return on a ParseFloat error), or
a runtime panic from dereferencing nil (recovered by gin outside the
handler). -/
inductive Outcome where
  | json (status : Nat) (success : Bool) (message : String)
  | ok (txId : String) (explorerUrl : String)
  | noResponse
  | panicked
deriving DecidableEq, Repr

/-- The handler's observable result: the response, the accounts map after
the request, and whether a chain connection was dialed, a signature
attempted, a broadcast attempted. -/
structure HandlerResult where
  outcome : Outcome
  accounts : Accounts
  dialed : Bool
  signAttempted : Bool
  sendAttempted : Bool

/-- Early return before any chain interaction. -/
def stop (o : Outcome) (a : Accounts) : HandlerResult := ⟨o, a, false, false, false⟩

/-- Return after the connection was dialed but before signing. -/
def stopDialed (o : Outcome) (a : Accounts) : HandlerResult := ⟨o, a, true, false, false⟩

/-- The balance the handler ends up comparing (main.go lines 150-151):
ethclient.BalanceAt returns a pointer to its zero-initialised result
value together with any error, so when the call fails the handler - which
discards the error - compares the non-nil zero balance. -/
def balanceValue : Except Unit Int → Int
  | .error _ => 0
  | .ok b => b

/-- The cooldown gate (main.go lines 89-100): a request is rejected when a
record exists and less than integerDefault hours have passed since it;
time.Since(t) = now - t. -/
def cooldownRejected (accounts : Accounts) (addr : String) (intervalHours : Int)
    (now : Int) : Bool :=
  match accounts addr with
  | some account_user => decide (now - account_user.lastWithdrawTime < intervalHours * hourNanos)
  | none => false

/-- handleWithdraw (main.go lines 70-258) as a pure function of the
configuration, the oracle environment, the binary64 rounding function and
the accounts map. -/
def handleWithdraw (cfg : Config) (env : ChainEnv) (rnd : ℚ → ℚ)
    (accounts : Accounts) : HandlerResult :=
  match env.bind with
  | .error e => stop (.json 400 false e) accounts
  | .ok req =>
    if isHexAddress req.address = false then
      stop (.json 400 false "Please check and enter a valid wallet address.") accounts
    else if cooldownRejected accounts req.address cfg.integerDefault env.now then
      stop (.json 403 false "You can only withdraw once every 24 hours.") accounts
    else
      match parseGoFloat req.amount with
      | none => stop .noResponse accounts
      | some fv =>
        match bigNewFloat (roundGoFloat rnd fv) with
        | none => stop .panicked accounts
        | some f =>
          let intAmount : Int := bigFloatInt (bigFloatMulE18 rnd f)
          match env.dial ("https://" ++ req.network) with
          | .error _ =>
              stopDialed (.json 500 false "Failed to connect to Mantle client") accounts
          | .ok _ =>
            match env.hexToECDSA cfg.privateKeyDefault with
            | .error _ =>
                stopDialed (.json 500 false "Failed to decode private key") accounts
            | .ok _ =>
              if env.pubkeyCastOk = false then
                stopDialed (.json 500 false "Failed to decode private key") accounts
              else
                let balance : Int := balanceValue (env.balanceAt env.fromAddress)
                if balance < intAmount then
                  stopDialed (.json 400 false "Insufficient balance") accounts
                else
                    match env.pendingNonceAt env.fromAddress with
                    | .error _ =>
                        stopDialed (.json 500 false "Failed to get nonce") accounts
                    | .ok nonce =>
                      match env.suggestGasPrice with
                      | .error _ =>
                          stopDialed (.json 500 false "Failed to get gas price") accounts
                      | .ok gasFeeCap =>
                        match env.suggestGasTipCap with
                        | .error _ =>
                            stopDialed (.json 500 false "Failed to get gas tip cap") accounts
                        | .ok gasTipCap =>
                          match env.networkID with
                          | .error _ =>
                              stopDialed (.json 500 false "Failed to get network ID") accounts
                          | .ok chainID =>
                            let toAddress := hexToAddress req.address
                            let msg : CallMsg :=
                              ⟨env.fromAddress, toAddress, gasFeeCap, gasTipCap, intAmount⟩
                            match env.estimateGas msg with
                            | .error _ =>
                                stopDialed (.json 500 false "Failed to estimate gas") accounts
                            | .ok gasLimit =>
                              let tx : TxData :=
                                ⟨chainID, nonce, gasFeeCap, gasTipCap, gasLimit,
                                  toAddress, intAmount⟩
                              match env.sendTransaction (env.signTx tx).toOption with
                              | .error _ =>
                                  ⟨.json 500 false "Deal failed", accounts, true, true, true⟩
                              | .ok _ =>
                                match env.signTx tx with
                                | .error _ => ⟨.panicked, accounts, true, true, true⟩
                                | .ok signedTx =>
                                  ⟨.ok signedTx.hashHex
                                      (cfg.explorerUrlDefault ++ signedTx.hashHex),
                                    mapInsert accounts req.address
                                      ⟨req.address, env.nowAtRecord⟩,
                                    true, true, true⟩

/-! ## Concrete fixtures for the closed witness statements -/

/-- A syntactically valid target address. -/
def addr0 : String := "0x1234567890123456789012345678901234567890"

/-- A benign request: network endpoint, valid address, amount 1.5. -/
def req0 : RequestBody := ⟨"rpc.sepolia.mantle.xyz", addr0, "1.5"⟩

/-- A configuration with the README's 24-hour interval. -/
def cfg0 : Config := ⟨24, "4c0ffee", "https://explorer.example/tx/"⟩

/-- A configuration whose cooldown interval is 1 hour, not 24. -/
def cfg1 : Config := ⟨1, "4c0ffee", "https://explorer.example/tx/"⟩

/-- An environment in which every chain call succeeds. -/
def env0 : ChainEnv where
  bind := .ok req0
  now := 0
  nowAtRecord := 7
  dial := fun _ => .ok ()
  hexToECDSA := fun _ => .ok ()
  pubkeyCastOk := true
  fromAddress := "0xffff567890123456789012345678901234567890"
  balanceAt := fun _ => .ok (2 * 10 ^ 18)
  pendingNonceAt := fun _ => .ok 5
  suggestGasPrice := .ok 100
  suggestGasTipCap := .ok 2
  networkID := .ok 5003
  estimateGas := fun _ => .ok 21000
  signTx := fun _ => .ok ⟨"0xaaaa1111"⟩
  sendTransaction := fun t => match t with | some _ => .ok () | none => .error ()

/-- The empty ledger. -/
def acc0 : Accounts := fun _ => none

/-- A ledger holding a record for addr0 taken at time 0. -/
def acc1 : Accounts := mapInsert acc0 addr0 ⟨addr0, 0⟩

/-- env0 half an hour after acc1's record was written. -/
def envHalfHour : ChainEnv := { env0 with now := 1800000000000, nowAtRecord := 1800000000000 }

/-! ## Claim theorems -/

section ClaimTheorems

attribute [local semireducible] Rat.mul Rat.add Rat.inv Rat.sub

set_option maxRecDepth 8192

set_option exponentiation.threshold 1100

/-- Claim C7: for every request whose address is not a syntactically valid
hex account address, the handler responds HTTP 400 with success false
before any chain connection is opened: the address validation (line 81)
precedes the dial (line 113), and nothing is signed or broadcast. -/
theorem claim_C7 (cfg : Config) (env : ChainEnv) (rnd : ℚ → ℚ) (accounts : Accounts)
    (req : RequestBody) (hbind : env.bind = .ok req)
    (haddr : isHexAddress req.address = false) :
    (handleWithdraw cfg env rnd accounts).outcome =
        .json 400 false "Please check and enter a valid wallet address." ∧
      (handleWithdraw cfg env rnd accounts).dialed = false ∧
      (handleWithdraw cfg env rnd accounts).signAttempted = false ∧
      (handleWithdraw cfg env rnd accounts).sendAttempted = false := by
  simp [handleWithdraw, hbind, haddr, stop]

/-- env0 with a malformed address (wrong length, as in the spec's example). -/
def envBadAddr : ChainEnv := { env0 with bind := .ok ⟨"n", "0x123", "1"⟩ }

/-- Witness for C7 at the concrete malformed address "0x123". -/
theorem claim_C7_witness :
    (handleWithdraw cfg0 envBadAddr id acc0).outcome =
        Outcome.json 400 false "Please check and enter a valid wallet address." ∧
      (handleWithdraw cfg0 envBadAddr id acc0).dialed = false ∧
      (handleWithdraw cfg0 envBadAddr id acc0).signAttempted = false ∧
      (handleWithdraw cfg0 envBadAddr id acc0).sendAttempted = false :=
  claim_C7 cfg0 envBadAddr id acc0 ⟨"n", "0x123", "1"⟩ rfl (by decide)

/-- Claim C8: for every request whose amount string strconv.ParseFloat
rejects, the handler returns (writing no response at all, per the bare
return at line 106) before any network call: no dial, no signature, no
broadcast, ledger unchanged. -/
theorem claim_C8 (cfg : Config) (env : ChainEnv) (rnd : ℚ → ℚ) (accounts : Accounts)
    (req : RequestBody) (hbind : env.bind = .ok req)
    (haddr : isHexAddress req.address = true)
    (hcool : cooldownRejected accounts req.address cfg.integerDefault env.now = false)
    (hparse : parseGoFloat req.amount = none) :
    (handleWithdraw cfg env rnd accounts).outcome = .noResponse ∧
      (handleWithdraw cfg env rnd accounts).dialed = false ∧
      (handleWithdraw cfg env rnd accounts).signAttempted = false ∧
      (handleWithdraw cfg env rnd accounts).sendAttempted = false ∧
      (handleWithdraw cfg env rnd accounts).accounts = accounts := by
  simp [handleWithdraw, hbind, haddr, hcool, hparse, stop]

/-- env0 with a non-numeric amount. -/
def envBadAmount : ChainEnv := { env0 with bind := .ok ⟨"n", addr0, "abc"⟩ }

/-- Witness for C8 at the concrete non-numeric amount "abc". -/
theorem claim_C8_witness :
    (handleWithdraw cfg0 envBadAmount id acc0).outcome = Outcome.noResponse ∧
      (handleWithdraw cfg0 envBadAmount id acc0).dialed = false ∧
      (handleWithdraw cfg0 envBadAmount id acc0).signAttempted = false ∧
      (handleWithdraw cfg0 envBadAmount id acc0).sendAttempted = false ∧
      (handleWithdraw cfg0 envBadAmount id acc0).accounts = acc0 :=
  claim_C8 cfg0 envBadAmount id acc0 ⟨"n", addr0, "abc"⟩ rfl (by decide) (by decide)
    (by decide)

/-- Claim C2: when the operator balance reads back strictly less than the
requested integer amount, the handler responds HTTP 400 "Insufficient
balance" and nothing is signed or broadcast; the later pipeline oracles
(nonce, fees, chain id, gas, signing, broadcast) are unconstrained here,
so the result does not depend on them: the balance check precedes them
all. -/
theorem claim_C2 (cfg : Config) (env : ChainEnv) (rnd : ℚ → ℚ) (accounts : Accounts)
    (req : RequestBody) (fv : GoFloat) (f : BigFloat) (bal : Int)
    (hbind : env.bind = .ok req)
    (haddr : isHexAddress req.address = true)
    (hcool : cooldownRejected accounts req.address cfg.integerDefault env.now = false)
    (hparse : parseGoFloat req.amount = some fv)
    (hnf : bigNewFloat (roundGoFloat rnd fv) = some f)
    (hdial : env.dial ("https://" ++ req.network) = .ok ())
    (hkey : env.hexToECDSA cfg.privateKeyDefault = .ok ())
    (hcast : env.pubkeyCastOk = true)
    (hbal : env.balanceAt env.fromAddress = .ok bal)
    (hlt : bal < bigFloatInt (bigFloatMulE18 rnd f)) :
    (handleWithdraw cfg env rnd accounts).outcome = .json 400 false "Insufficient balance" ∧
      (handleWithdraw cfg env rnd accounts).signAttempted = false ∧
      (handleWithdraw cfg env rnd accounts).sendAttempted = false ∧
      (handleWithdraw cfg env rnd accounts).accounts = accounts := by
  simp [handleWithdraw, hbind, haddr, hcool, hparse, hnf, hdial, hkey, hcast, hbal, hlt, balanceValue,
    stopDialed]

/-- env0 with an operator balance of 0 wei. -/
def envPoor : ChainEnv := { env0 with balanceAt := fun _ => .ok 0 }

/-- Witness for C2: balance 0 against a request for 1.5e18 wei. -/
theorem claim_C2_witness :
    (handleWithdraw cfg0 envPoor id acc0).outcome =
        Outcome.json 400 false "Insufficient balance" ∧
      (handleWithdraw cfg0 envPoor id acc0).signAttempted = false ∧
      (handleWithdraw cfg0 envPoor id acc0).sendAttempted = false ∧
      (handleWithdraw cfg0 envPoor id acc0).accounts = acc0 :=
  claim_C2 cfg0 envPoor id acc0 req0 (GoFloat.finite (3 / 2)) (BigFloat.finite (3 / 2)) 0
    rfl (by decide) (by decide) (by decide) (by decide) rfl rfl rfl rfl (by decide)

/-- env0 whose balance read fails. -/
def envNoBal : ChainEnv := { env0 with balanceAt := fun _ => .error () }

/-- Claim C10, counterexample: on a failed balance read the comparison is
not performed on an absent (nil) balance: ethclient.BalanceAt hands back
a non-nil zero value with its error, so with amount "1.5" the run
completes normally with the definite verdict HTTP 400 "Insufficient
balance" instead of the nil comparison the claim describes. -/
theorem claim_C10_counterexample :
    envNoBal.balanceAt envNoBal.fromAddress = .error () ∧
      (handleWithdraw cfg0 envNoBal id acc0).outcome =
        Outcome.json 400 false "Insufficient balance" ∧
      (handleWithdraw cfg0 envNoBal id acc0).outcome ≠ Outcome.panicked := by
  exact ⟨rfl, by decide, by decide⟩

/-- Claim C10 as amended: the error of the BalanceAt read is assigned to
blank and the handler takes no error branch; it proceeds to the comparison
with the balance value the read returned - not a nil value but the
non-nil zero that ethclient.BalanceAt returns alongside its error - so
the whole run equals the run whose balance read succeeded with 0: a
failed read is never reported as a connectivity failure, and for a
positive requested amount it is answered as HTTP 400 "Insufficient
balance" with nothing signed or broadcast and the ledger unchanged. -/
theorem claim_C10_amended (cfg : Config) (env : ChainEnv) (rnd : ℚ → ℚ)
    (accounts : Accounts) (req : RequestBody) (fv : GoFloat) (f : BigFloat)
    (hbind : env.bind = .ok req)
    (haddr : isHexAddress req.address = true)
    (hcool : cooldownRejected accounts req.address cfg.integerDefault env.now = false)
    (hparse : parseGoFloat req.amount = some fv)
    (hnf : bigNewFloat (roundGoFloat rnd fv) = some f)
    (hdial : env.dial ("https://" ++ req.network) = .ok ())
    (hkey : env.hexToECDSA cfg.privateKeyDefault = .ok ())
    (hcast : env.pubkeyCastOk = true)
    (hbal : env.balanceAt env.fromAddress = .error ()) :
    handleWithdraw cfg env rnd accounts =
        handleWithdraw cfg { env with balanceAt := fun _ => .ok 0 } rnd accounts ∧
      (0 < bigFloatInt (bigFloatMulE18 rnd f) →
        (handleWithdraw cfg env rnd accounts).outcome =
            .json 400 false "Insufficient balance" ∧
          (handleWithdraw cfg env rnd accounts).outcome ≠
            .json 500 false "Failed to connect to Mantle client" ∧
          (handleWithdraw cfg env rnd accounts).signAttempted = false ∧
          (handleWithdraw cfg env rnd accounts).sendAttempted = false ∧
          (handleWithdraw cfg env rnd accounts).accounts = accounts) := by
  constructor
  · simp [handleWithdraw, hbind, haddr, hcool, hparse, hnf, hdial, hkey, hcast, hbal,
      balanceValue]
  · intro hpos
    have hlt : balanceValue (env.balanceAt env.fromAddress) <
        bigFloatInt (bigFloatMulE18 rnd f) := by
      rw [hbal]; simpa [balanceValue] using hpos
    simp [handleWithdraw, hbind, haddr, hcool, hparse, hnf, hdial, hkey, hcast, hlt,
      stopDialed]

/-- Witness for the amended C10: the concrete failing balance read of
envNoBal against the 1.5e18 wei request. -/
theorem claim_C10_amended_witness :
    handleWithdraw cfg0 envNoBal id acc0 =
        handleWithdraw cfg0 { envNoBal with balanceAt := fun _ => .ok 0 } id acc0 ∧
      (0 < bigFloatInt (bigFloatMulE18 id (BigFloat.finite (3 / 2))) →
        (handleWithdraw cfg0 envNoBal id acc0).outcome =
            Outcome.json 400 false "Insufficient balance" ∧
          (handleWithdraw cfg0 envNoBal id acc0).outcome ≠
            Outcome.json 500 false "Failed to connect to Mantle client" ∧
          (handleWithdraw cfg0 envNoBal id acc0).signAttempted = false ∧
          (handleWithdraw cfg0 envNoBal id acc0).sendAttempted = false ∧
          (handleWithdraw cfg0 envNoBal id acc0).accounts = acc0) :=
  claim_C10_amended cfg0 envNoBal id acc0 req0 (GoFloat.finite (3 / 2))
    (BigFloat.finite (3 / 2)) rfl (by decide) (by decide) (by decide) (by decide)
    rfl rfl rfl rfl

/-- Claim C5, counterexample: with the cooldown interval configured to 1
hour, a cooldown-rejected request is still told "once every 24 hours.";
the rejection message does not carry the configured interval, so the
response is not "You can only withdraw once every 1 hours." as the claim
requires. -/
theorem claim_C5_counterexample :
    cfg1.integerDefault = 1 ∧
      (handleWithdraw cfg1 envHalfHour id acc1).outcome =
        Outcome.json 403 false "You can only withdraw once every 24 hours." ∧
      "You can only withdraw once every 24 hours." ≠
        "You can only withdraw once every 1 hours." := by
  exact ⟨rfl, by decide, by decide⟩

/-- Claim C5 as amended: every cooldown-rejected request gets HTTP 403
with success false and the fixed message "You can only withdraw once
every 24 hours.", whatever interval is configured; the configured
interval determines only the rejection window, not the message text. -/
theorem claim_C5_amended (cfg : Config) (env : ChainEnv) (rnd : ℚ → ℚ)
    (accounts : Accounts) (req : RequestBody) (rec : Account)
    (hbind : env.bind = .ok req)
    (haddr : isHexAddress req.address = true)
    (hrec : accounts req.address = some rec)
    (hlt : env.now - rec.lastWithdrawTime < cfg.integerDefault * hourNanos) :
    (handleWithdraw cfg env rnd accounts).outcome =
      .json 403 false "You can only withdraw once every 24 hours." := by
  have hcool : cooldownRejected accounts req.address cfg.integerDefault env.now = true := by
    simp [cooldownRejected, hrec, hlt]
  simp [handleWithdraw, hbind, haddr, hcool, stop]

/-- Witness for the amended C5: interval 1 hour, record at time 0,
request half an hour later. -/
theorem claim_C5_amended_witness :
    (handleWithdraw cfg1 envHalfHour id acc1).outcome =
      Outcome.json 403 false "You can only withdraw once every 24 hours." :=
  claim_C5_amended cfg1 envHalfHour id acc1 req0 ⟨addr0, 0⟩ rfl (by decide) (by decide)
    (by decide)

/-- Exhaustive classification of one handler run, by cases over every
branch of handleWithdraw: either the run is not a success, the accounts
map is untouched and no 403 arises except from the cooldown gate; or the
run is the success leaf, which overwrites the requested address's record
with the later time.Now reading. -/
lemma handleWithdraw_shape (cfg : Config) (env : ChainEnv) (rnd : ℚ → ℚ)
    (accounts : Accounts) :
    (((handleWithdraw cfg env rnd accounts).accounts = accounts ∧
        ∀ t u, (handleWithdraw cfg env rnd accounts).outcome ≠ Outcome.ok t u) ∨
      (∃ (req : RequestBody) (stx : SignedTx), env.bind = .ok req ∧
        (handleWithdraw cfg env rnd accounts).outcome =
          Outcome.ok stx.hashHex (cfg.explorerUrlDefault ++ stx.hashHex) ∧
        (handleWithdraw cfg env rnd accounts).accounts =
          mapInsert accounts req.address ⟨req.address, env.nowAtRecord⟩)) ∧
    (∀ su msg, (handleWithdraw cfg env rnd accounts).outcome = Outcome.json 403 su msg →
      ∃ req, env.bind = .ok req ∧ su = false ∧
        msg = "You can only withdraw once every 24 hours." ∧
        cooldownRejected accounts req.address cfg.integerDefault env.now = true) := by
  rcases hb : env.bind with e | req
  · constructor
    · left; simp [handleWithdraw, hb, stop]
    · intro su msg h; simp [handleWithdraw, hb, stop] at h
  by_cases ha : isHexAddress req.address = false
  · constructor
    · left; simp [handleWithdraw, hb, ha, stop]
    · intro su msg h; simp [handleWithdraw, hb, ha, stop] at h
  by_cases hc : cooldownRejected accounts req.address cfg.integerDefault env.now = true
  · constructor
    · left; simp [handleWithdraw, hb, ha, hc, stop]
    · intro su msg h
      simp [handleWithdraw, hb, ha, hc, stop] at h
      exact ⟨req, rfl, h.1, h.2.symm, hc⟩
  rcases hp : parseGoFloat req.amount with _ | fv
  · constructor
    · left; simp [handleWithdraw, hb, ha, hc, hp, stop]
    · intro su msg h; simp [handleWithdraw, hb, ha, hc, hp, stop] at h
  rcases hn : bigNewFloat (roundGoFloat rnd fv) with _ | f
  · constructor
    · left; simp [handleWithdraw, hb, ha, hc, hp, hn, stop]
    · intro su msg h; simp [handleWithdraw, hb, ha, hc, hp, hn, stop] at h
  rcases hd : env.dial ("https://" ++ req.network) with u | u
  · constructor
    · left; simp [handleWithdraw, hb, ha, hc, hp, hn, hd, stopDialed]
    · intro su msg h; simp [handleWithdraw, hb, ha, hc, hp, hn, hd, stopDialed] at h
  rcases hk : env.hexToECDSA cfg.privateKeyDefault with u | u
  · constructor
    · left; simp [handleWithdraw, hb, ha, hc, hp, hn, hd, hk, stopDialed]
    · intro su msg h; simp [handleWithdraw, hb, ha, hc, hp, hn, hd, hk, stopDialed] at h
  by_cases hcst : env.pubkeyCastOk = false
  · constructor
    · left; simp [handleWithdraw, hb, ha, hc, hp, hn, hd, hk, hcst, stopDialed]
    · intro su msg h
      simp [handleWithdraw, hb, ha, hc, hp, hn, hd, hk, hcst, stopDialed] at h
  by_cases hlt : balanceValue (env.balanceAt env.fromAddress) <
    bigFloatInt (bigFloatMulE18 rnd f)
  · constructor
    · left; simp [handleWithdraw, hb, ha, hc, hp, hn, hd, hk, hcst, hlt, stopDialed]
    · intro su msg h
      simp [handleWithdraw, hb, ha, hc, hp, hn, hd, hk, hcst, hlt, stopDialed] at h
  rcases hnn : env.pendingNonceAt env.fromAddress with u | nonce
  · constructor
    · left; simp [handleWithdraw, hb, ha, hc, hp, hn, hd, hk, hcst, hlt, hnn, stopDialed]
    · intro su msg h
      simp [handleWithdraw, hb, ha, hc, hp, hn, hd, hk, hcst, hlt, hnn, stopDialed] at h
  rcases hgp : env.suggestGasPrice with u | gasFeeCap
  · constructor
    · left
      simp [handleWithdraw, hb, ha, hc, hp, hn, hd, hk, hcst, hlt, hnn, hgp, stopDialed]
    · intro su msg h
      simp [handleWithdraw, hb, ha, hc, hp, hn, hd, hk, hcst, hlt, hnn, hgp,
        stopDialed] at h
  rcases hgt : env.suggestGasTipCap with u | gasTipCap
  · constructor
    · left
      simp [handleWithdraw, hb, ha, hc, hp, hn, hd, hk, hcst, hlt, hnn, hgp, hgt,
        stopDialed]
    · intro su msg h
      simp [handleWithdraw, hb, ha, hc, hp, hn, hd, hk, hcst, hlt, hnn, hgp, hgt,
        stopDialed] at h
  rcases hcid : env.networkID with u | chainID
  · constructor
    · left
      simp [handleWithdraw, hb, ha, hc, hp, hn, hd, hk, hcst, hlt, hnn, hgp, hgt,
        hcid, stopDialed]
    · intro su msg h
      simp [handleWithdraw, hb, ha, hc, hp, hn, hd, hk, hcst, hlt, hnn, hgp, hgt,
        hcid, stopDialed] at h
  rcases hest : env.estimateGas ⟨env.fromAddress, hexToAddress req.address, gasFeeCap,
      gasTipCap, bigFloatInt (bigFloatMulE18 rnd f)⟩ with u | gasLimit
  · constructor
    · left
      simp [handleWithdraw, hb, ha, hc, hp, hn, hd, hk, hcst, hlt, hnn, hgp, hgt,
        hcid, hest, stopDialed]
    · intro su msg h
      simp [handleWithdraw, hb, ha, hc, hp, hn, hd, hk, hcst, hlt, hnn, hgp, hgt,
        hcid, hest, stopDialed] at h
  rcases hsg : env.signTx ⟨chainID, nonce, gasFeeCap, gasTipCap, gasLimit,
      hexToAddress req.address, bigFloatInt (bigFloatMulE18 rnd f)⟩ with u | stx
  · rcases hsd : env.sendTransaction none with u2 | u2
    · constructor
      · left
        simp [handleWithdraw, hb, ha, hc, hp, hn, hd, hk, hcst, hlt, hnn, hgp, hgt,
          hcid, hest, hsg, hsd, Except.toOption]
      · intro su msg h
        simp [handleWithdraw, hb, ha, hc, hp, hn, hd, hk, hcst, hlt, hnn, hgp, hgt,
          hcid, hest, hsg, hsd, Except.toOption] at h
    · constructor
      · left
        simp [handleWithdraw, hb, ha, hc, hp, hn, hd, hk, hcst, hlt, hnn, hgp, hgt,
          hcid, hest, hsg, hsd, Except.toOption]
      · intro su msg h
        simp [handleWithdraw, hb, ha, hc, hp, hn, hd, hk, hcst, hlt, hnn, hgp, hgt,
          hcid, hest, hsg, hsd, Except.toOption] at h
  rcases hsd : env.sendTransaction (some stx) with u2 | u2
  · constructor
    · left
      simp [handleWithdraw, hb, ha, hc, hp, hn, hd, hk, hcst, hlt, hnn, hgp, hgt,
        hcid, hest, hsg, hsd, Except.toOption]
    · intro su msg h
      simp [handleWithdraw, hb, ha, hc, hp, hn, hd, hk, hcst, hlt, hnn, hgp, hgt,
        hcid, hest, hsg, hsd, Except.toOption] at h
  constructor
  · right
    refine ⟨req, stx, by simp [hb], ?_, ?_⟩
    · simp [handleWithdraw, hb, ha, hc, hp, hn, hd, hk, hcst, hlt, hnn, hgp, hgt,
        hcid, hest, hsg, hsd, Except.toOption]
    · simp [handleWithdraw, hb, ha, hc, hp, hn, hd, hk, hcst, hlt, hnn, hgp, hgt,
        hcid, hest, hsg, hsd, Except.toOption]
  · intro su msg h
    simp [handleWithdraw, hb, ha, hc, hp, hn, hd, hk, hcst, hlt, hnn, hgp, hgt,
      hcid, hest, hsg, hsd, Except.toOption] at h

/-- Claim C3: the cooldown ledger is mutated only on successful
disbursement completion: on every run that does not end in the success
response the accounts map is unchanged, and on every success the record
for the requested address is created or overwritten (a map assignment,
not an append) with lastWithdrawTime set to the current time. -/
theorem claim_C3 (cfg : Config) (env : ChainEnv) (rnd : ℚ → ℚ) (accounts : Accounts) :
    (∀ t u, (handleWithdraw cfg env rnd accounts).outcome = Outcome.ok t u →
      ∃ req, env.bind = .ok req ∧
        (handleWithdraw cfg env rnd accounts).accounts =
          mapInsert accounts req.address ⟨req.address, env.nowAtRecord⟩) ∧
    ((∀ t u, (handleWithdraw cfg env rnd accounts).outcome ≠ Outcome.ok t u) →
      (handleWithdraw cfg env rnd accounts).accounts = accounts) := by
  rcases (handleWithdraw_shape cfg env rnd accounts).1 with ⟨hacc, hno⟩ |
    ⟨req, stx, hb, hout, hacc⟩
  · exact ⟨fun t u h => absurd h (hno t u), fun _ => hacc⟩
  · exact ⟨fun t u _ => ⟨req, hb, hacc⟩, fun hno => absurd hout (hno _ _)⟩

/-- Claim C1: with a well-formed body and a valid address, an address with
no ledger record is never cooldown-rejected, and an address recorded at
time t0 is cooldown-rejected exactly when now - t0 is less than the
configured interval (integerDefault hours), as time.Since measures it. -/
theorem claim_C1 (cfg : Config) (env : ChainEnv) (rnd : ℚ → ℚ) (accounts : Accounts)
    (req : RequestBody) (hbind : env.bind = .ok req)
    (haddr : isHexAddress req.address = true) :
    (accounts req.address = none →
      (handleWithdraw cfg env rnd accounts).outcome ≠
        Outcome.json 403 false "You can only withdraw once every 24 hours.") ∧
    (∀ rec, accounts req.address = some rec →
      ((handleWithdraw cfg env rnd accounts).outcome =
          Outcome.json 403 false "You can only withdraw once every 24 hours." ↔
        env.now - rec.lastWithdrawTime < cfg.integerDefault * hourNanos)) := by
  constructor
  · intro hnone h
    obtain ⟨req2, hb2, -, -, hc2⟩ := (handleWithdraw_shape cfg env rnd accounts).2 _ _ h
    rw [hbind] at hb2
    injection hb2 with hreq
    rw [← hreq] at hc2
    simp [cooldownRejected, hnone] at hc2
  · intro rec hrec
    constructor
    · intro h
      obtain ⟨req2, hb2, -, -, hc2⟩ := (handleWithdraw_shape cfg env rnd accounts).2 _ _ h
      rw [hbind] at hb2
      injection hb2 with hreq
      rw [← hreq] at hc2
      simpa [cooldownRejected, hrec] using hc2
    · intro hlt
      have hc : cooldownRejected accounts req.address cfg.integerDefault env.now = true := by
        simp [cooldownRejected, hrec, hlt]
      simp [handleWithdraw, hbind, haddr, hc, stop]

/-- Witness for C1: env0 on the empty ledger (no prior record, request
succeeds, in particular it is not cooldown-rejected), and on acc1 half an
hour after its record with a 1-hour interval (rejected). -/
theorem claim_C1_witness :
    ((acc0 req0.address = none →
      (handleWithdraw cfg1 env0 id acc0).outcome ≠
        Outcome.json 403 false "You can only withdraw once every 24 hours.") ∧
    (∀ rec, acc0 req0.address = some rec →
      ((handleWithdraw cfg1 env0 id acc0).outcome =
          Outcome.json 403 false "You can only withdraw once every 24 hours." ↔
        env0.now - rec.lastWithdrawTime < cfg1.integerDefault * hourNanos))) ∧
    ((acc1 req0.address = none →
      (handleWithdraw cfg1 envHalfHour id acc1).outcome ≠
        Outcome.json 403 false "You can only withdraw once every 24 hours.") ∧
    (∀ rec, acc1 req0.address = some rec →
      ((handleWithdraw cfg1 envHalfHour id acc1).outcome =
          Outcome.json 403 false "You can only withdraw once every 24 hours." ↔
        envHalfHour.now - rec.lastWithdrawTime < cfg1.integerDefault * hourNanos))) :=
  ⟨claim_C1 cfg1 env0 id acc0 req0 rfl (by decide),
   claim_C1 cfg1 envHalfHour id acc1 req0 rfl (by decide)⟩

/-- Claim C4: each failure of the strict sequential pipeline aborts the
remaining steps with HTTP 500 and its own stage message: connect, nonce,
gas price, gas tip cap, chain id and gas estimation each answer their
distinct message without signing or broadcasting anything, the broadcast
failure answers "Deal failed", the six fetch messages and "Deal failed"
are pairwise distinct, and a signing failure is surfaced as the broadcast
failure "Deal failed" (the handler discards the signing error and hands
the nil transaction to SendTransaction, which fails on it). -/
theorem claim_C4 (cfg : Config) (env : ChainEnv) (rnd : ℚ → ℚ) (accounts : Accounts)
    (req : RequestBody) (fv : GoFloat) (f : BigFloat)
    (hbind : env.bind = .ok req)
    (haddr : isHexAddress req.address = true)
    (hcool : cooldownRejected accounts req.address cfg.integerDefault env.now = false)
    (hparse : parseGoFloat req.amount = some fv)
    (hnf : bigNewFloat (roundGoFloat rnd fv) = some f) :
    (env.dial ("https://" ++ req.network) = .error () →
      (handleWithdraw cfg env rnd accounts).outcome =
          .json 500 false "Failed to connect to Mantle client" ∧
        (handleWithdraw cfg env rnd accounts).signAttempted = false ∧
        (handleWithdraw cfg env rnd accounts).sendAttempted = false) ∧
    (∀ bal : Int, env.dial ("https://" ++ req.network) = .ok () →
      env.hexToECDSA cfg.privateKeyDefault = .ok () →
      env.pubkeyCastOk = true →
      env.balanceAt env.fromAddress = .ok bal →
      ¬ bal < bigFloatInt (bigFloatMulE18 rnd f) →
      env.pendingNonceAt env.fromAddress = .error () →
      (handleWithdraw cfg env rnd accounts).outcome =
          .json 500 false "Failed to get nonce" ∧
        (handleWithdraw cfg env rnd accounts).signAttempted = false ∧
        (handleWithdraw cfg env rnd accounts).sendAttempted = false) ∧
    (∀ (bal : Int) (nonce : Nat), env.dial ("https://" ++ req.network) = .ok () →
      env.hexToECDSA cfg.privateKeyDefault = .ok () →
      env.pubkeyCastOk = true →
      env.balanceAt env.fromAddress = .ok bal →
      ¬ bal < bigFloatInt (bigFloatMulE18 rnd f) →
      env.pendingNonceAt env.fromAddress = .ok nonce →
      env.suggestGasPrice = .error () →
      (handleWithdraw cfg env rnd accounts).outcome =
          .json 500 false "Failed to get gas price" ∧
        (handleWithdraw cfg env rnd accounts).signAttempted = false ∧
        (handleWithdraw cfg env rnd accounts).sendAttempted = false) ∧
    (∀ (bal : Int) (nonce : Nat) (gasFeeCap : Int),
      env.dial ("https://" ++ req.network) = .ok () →
      env.hexToECDSA cfg.privateKeyDefault = .ok () →
      env.pubkeyCastOk = true →
      env.balanceAt env.fromAddress = .ok bal →
      ¬ bal < bigFloatInt (bigFloatMulE18 rnd f) →
      env.pendingNonceAt env.fromAddress = .ok nonce →
      env.suggestGasPrice = .ok gasFeeCap →
      env.suggestGasTipCap = .error () →
      (handleWithdraw cfg env rnd accounts).outcome =
          .json 500 false "Failed to get gas tip cap" ∧
        (handleWithdraw cfg env rnd accounts).signAttempted = false ∧
        (handleWithdraw cfg env rnd accounts).sendAttempted = false) ∧
    (∀ (bal : Int) (nonce : Nat) (gasFeeCap gasTipCap : Int),
      env.dial ("https://" ++ req.network) = .ok () →
      env.hexToECDSA cfg.privateKeyDefault = .ok () →
      env.pubkeyCastOk = true →
      env.balanceAt env.fromAddress = .ok bal →
      ¬ bal < bigFloatInt (bigFloatMulE18 rnd f) →
      env.pendingNonceAt env.fromAddress = .ok nonce →
      env.suggestGasPrice = .ok gasFeeCap →
      env.suggestGasTipCap = .ok gasTipCap →
      env.networkID = .error () →
      (handleWithdraw cfg env rnd accounts).outcome =
          .json 500 false "Failed to get network ID" ∧
        (handleWithdraw cfg env rnd accounts).signAttempted = false ∧
        (handleWithdraw cfg env rnd accounts).sendAttempted = false) ∧
    (∀ (bal : Int) (nonce : Nat) (gasFeeCap gasTipCap chainID : Int),
      env.dial ("https://" ++ req.network) = .ok () →
      env.hexToECDSA cfg.privateKeyDefault = .ok () →
      env.pubkeyCastOk = true →
      env.balanceAt env.fromAddress = .ok bal →
      ¬ bal < bigFloatInt (bigFloatMulE18 rnd f) →
      env.pendingNonceAt env.fromAddress = .ok nonce →
      env.suggestGasPrice = .ok gasFeeCap →
      env.suggestGasTipCap = .ok gasTipCap →
      env.networkID = .ok chainID →
      env.estimateGas ⟨env.fromAddress, hexToAddress req.address, gasFeeCap, gasTipCap,
        bigFloatInt (bigFloatMulE18 rnd f)⟩ = .error () →
      (handleWithdraw cfg env rnd accounts).outcome =
          .json 500 false "Failed to estimate gas" ∧
        (handleWithdraw cfg env rnd accounts).signAttempted = false ∧
        (handleWithdraw cfg env rnd accounts).sendAttempted = false) ∧
    (∀ (bal : Int) (nonce : Nat) (gasFeeCap gasTipCap chainID : Int) (gasLimit : Nat)
      (stx : SignedTx),
      env.dial ("https://" ++ req.network) = .ok () →
      env.hexToECDSA cfg.privateKeyDefault = .ok () →
      env.pubkeyCastOk = true →
      env.balanceAt env.fromAddress = .ok bal →
      ¬ bal < bigFloatInt (bigFloatMulE18 rnd f) →
      env.pendingNonceAt env.fromAddress = .ok nonce →
      env.suggestGasPrice = .ok gasFeeCap →
      env.suggestGasTipCap = .ok gasTipCap →
      env.networkID = .ok chainID →
      env.estimateGas ⟨env.fromAddress, hexToAddress req.address, gasFeeCap, gasTipCap,
        bigFloatInt (bigFloatMulE18 rnd f)⟩ = .ok gasLimit →
      env.signTx ⟨chainID, nonce, gasFeeCap, gasTipCap, gasLimit, hexToAddress req.address,
        bigFloatInt (bigFloatMulE18 rnd f)⟩ = .ok stx →
      env.sendTransaction (some stx) = .error () →
      (handleWithdraw cfg env rnd accounts).outcome = .json 500 false "Deal failed") ∧
    (∀ (bal : Int) (nonce : Nat) (gasFeeCap gasTipCap chainID : Int) (gasLimit : Nat),
      env.dial ("https://" ++ req.network) = .ok () →
      env.hexToECDSA cfg.privateKeyDefault = .ok () →
      env.pubkeyCastOk = true →
      env.balanceAt env.fromAddress = .ok bal →
      ¬ bal < bigFloatInt (bigFloatMulE18 rnd f) →
      env.pendingNonceAt env.fromAddress = .ok nonce →
      env.suggestGasPrice = .ok gasFeeCap →
      env.suggestGasTipCap = .ok gasTipCap →
      env.networkID = .ok chainID →
      env.estimateGas ⟨env.fromAddress, hexToAddress req.address, gasFeeCap, gasTipCap,
        bigFloatInt (bigFloatMulE18 rnd f)⟩ = .ok gasLimit →
      env.signTx ⟨chainID, nonce, gasFeeCap, gasTipCap, gasLimit, hexToAddress req.address,
        bigFloatInt (bigFloatMulE18 rnd f)⟩ = .error () →
      env.sendTransaction none = .error () →
      (handleWithdraw cfg env rnd accounts).outcome = .json 500 false "Deal failed") ∧
    List.Pairwise (fun a b => a ≠ b)
      ["Failed to connect to Mantle client", "Failed to get nonce",
        "Failed to get gas price", "Failed to get gas tip cap", "Failed to get network ID",
        "Failed to estimate gas", "Deal failed"] := by
  refine ⟨?_, ?_, ?_, ?_, ?_, ?_, ?_, ?_, ?_⟩
  · intro hd
    simp [handleWithdraw, hbind, haddr, hcool, hparse, hnf, hd, stopDialed]
  · intro bal hd hk hcst hbal hge hn
    simp [handleWithdraw, hbind, haddr, hcool, hparse, hnf, hd, hk, hcst, hbal, hge, balanceValue, hn,
      stopDialed]
  · intro bal nonce hd hk hcst hbal hge hn hgp
    simp [handleWithdraw, hbind, haddr, hcool, hparse, hnf, hd, hk, hcst, hbal, hge, balanceValue, hn,
      hgp, stopDialed]
  · intro bal nonce gasFeeCap hd hk hcst hbal hge hn hgp hgt
    simp [handleWithdraw, hbind, haddr, hcool, hparse, hnf, hd, hk, hcst, hbal, hge, balanceValue, hn,
      hgp, hgt, stopDialed]
  · intro bal nonce gasFeeCap gasTipCap hd hk hcst hbal hge hn hgp hgt hcid
    simp [handleWithdraw, hbind, haddr, hcool, hparse, hnf, hd, hk, hcst, hbal, hge, balanceValue, hn,
      hgp, hgt, hcid, stopDialed]
  · intro bal nonce gasFeeCap gasTipCap chainID hd hk hcst hbal hge hn hgp hgt hcid hest
    simp [handleWithdraw, hbind, haddr, hcool, hparse, hnf, hd, hk, hcst, hbal, hge, balanceValue, hn,
      hgp, hgt, hcid, hest, stopDialed]
  · intro bal nonce gasFeeCap gasTipCap chainID gasLimit stx hd hk hcst hbal hge hn hgp
      hgt hcid hest hsg hsd
    simp [handleWithdraw, hbind, haddr, hcool, hparse, hnf, hd, hk, hcst, hbal, hge, balanceValue, hn,
      hgp, hgt, hcid, hest, hsg, hsd, Except.toOption]
  · intro bal nonce gasFeeCap gasTipCap chainID gasLimit hd hk hcst hbal hge hn hgp hgt
      hcid hest hsg hsd
    simp [handleWithdraw, hbind, haddr, hcool, hparse, hnf, hd, hk, hcst, hbal, hge, balanceValue, hn,
      hgp, hgt, hcid, hest, hsg, hsd, Except.toOption]
  · decide

/-- Claim C9: every successful disbursement answers HTTP 200 with success
true, tx_id the hex hash of the signed transaction that was broadcast,
and explorer_url the configured explorer base concatenated with that very
tx_id; the ledger is updated for the requested address. -/
theorem claim_C9 (cfg : Config) (env : ChainEnv) (rnd : ℚ → ℚ) (accounts : Accounts)
    (req : RequestBody) (fv : GoFloat) (f : BigFloat) (bal : Int) (nonce : Nat)
    (gasFeeCap gasTipCap chainID : Int) (gasLimit : Nat) (stx : SignedTx)
    (hbind : env.bind = .ok req)
    (haddr : isHexAddress req.address = true)
    (hcool : cooldownRejected accounts req.address cfg.integerDefault env.now = false)
    (hparse : parseGoFloat req.amount = some fv)
    (hnf : bigNewFloat (roundGoFloat rnd fv) = some f)
    (hdial : env.dial ("https://" ++ req.network) = .ok ())
    (hkey : env.hexToECDSA cfg.privateKeyDefault = .ok ())
    (hcast : env.pubkeyCastOk = true)
    (hbal : env.balanceAt env.fromAddress = .ok bal)
    (hge : ¬ bal < bigFloatInt (bigFloatMulE18 rnd f))
    (hnonce : env.pendingNonceAt env.fromAddress = .ok nonce)
    (hgp : env.suggestGasPrice = .ok gasFeeCap)
    (hgt : env.suggestGasTipCap = .ok gasTipCap)
    (hcid : env.networkID = .ok chainID)
    (hest : env.estimateGas ⟨env.fromAddress, hexToAddress req.address, gasFeeCap,
      gasTipCap, bigFloatInt (bigFloatMulE18 rnd f)⟩ = .ok gasLimit)
    (hsign : env.signTx ⟨chainID, nonce, gasFeeCap, gasTipCap, gasLimit,
      hexToAddress req.address, bigFloatInt (bigFloatMulE18 rnd f)⟩ = .ok stx)
    (hsend : env.sendTransaction (some stx) = .ok ()) :
    (handleWithdraw cfg env rnd accounts).outcome =
        .ok stx.hashHex (cfg.explorerUrlDefault ++ stx.hashHex) ∧
      (handleWithdraw cfg env rnd accounts).accounts =
        mapInsert accounts req.address ⟨req.address, env.nowAtRecord⟩ := by
  constructor
  · simp [handleWithdraw, hbind, haddr, hcool, hparse, hnf, hdial, hkey, hcast, hbal, hge, balanceValue,
      hnonce, hgp, hgt, hcid, hest, hsign, hsend, Except.toOption]
  · simp [handleWithdraw, hbind, haddr, hcool, hparse, hnf, hdial, hkey, hcast, hbal, hge, balanceValue,
      hnonce, hgp, hgt, hcid, hest, hsign, hsend, Except.toOption]

/-- Witness for C9: env0's fully successful run on the empty ledger. -/
theorem claim_C9_witness :
    (handleWithdraw cfg0 env0 id acc0).outcome =
        Outcome.ok "0xaaaa1111" ("https://explorer.example/tx/" ++ "0xaaaa1111") ∧
      (handleWithdraw cfg0 env0 id acc0).accounts =
        mapInsert acc0 req0.address ⟨req0.address, 7⟩ :=
  claim_C9 cfg0 env0 id acc0 req0 (GoFloat.finite (3 / 2)) (BigFloat.finite (3 / 2))
    (2 * 10 ^ 18) 5 100 2 5003 21000 ⟨"0xaaaa1111"⟩ rfl (by decide) (by decide) (by decide)
    (by decide) rfl rfl rfl rfl (by decide) rfl rfl rfl rfl rfl rfl rfl

/-- Witness for C4: env0's environment with the hypotheses of the theorem
discharged at the concrete request req0. -/
theorem claim_C4_witness :
    (env0.dial ("https://" ++ req0.network) = .error () →
      (handleWithdraw cfg0 env0 id acc0).outcome =
          Outcome.json 500 false "Failed to connect to Mantle client" ∧
        (handleWithdraw cfg0 env0 id acc0).signAttempted = false ∧
        (handleWithdraw cfg0 env0 id acc0).sendAttempted = false) ∧
    (∀ bal : Int, env0.dial ("https://" ++ req0.network) = .ok () →
      env0.hexToECDSA cfg0.privateKeyDefault = .ok () →
      env0.pubkeyCastOk = true →
      env0.balanceAt env0.fromAddress = .ok bal →
      ¬ bal < bigFloatInt (bigFloatMulE18 id (BigFloat.finite (3 / 2))) →
      env0.pendingNonceAt env0.fromAddress = .error () →
      (handleWithdraw cfg0 env0 id acc0).outcome =
          Outcome.json 500 false "Failed to get nonce" ∧
        (handleWithdraw cfg0 env0 id acc0).signAttempted = false ∧
        (handleWithdraw cfg0 env0 id acc0).sendAttempted = false) ∧
    (∀ (bal : Int) (nonce : Nat), env0.dial ("https://" ++ req0.network) = .ok () →
      env0.hexToECDSA cfg0.privateKeyDefault = .ok () →
      env0.pubkeyCastOk = true →
      env0.balanceAt env0.fromAddress = .ok bal →
      ¬ bal < bigFloatInt (bigFloatMulE18 id (BigFloat.finite (3 / 2))) →
      env0.pendingNonceAt env0.fromAddress = .ok nonce →
      env0.suggestGasPrice = .error () →
      (handleWithdraw cfg0 env0 id acc0).outcome =
          Outcome.json 500 false "Failed to get gas price" ∧
        (handleWithdraw cfg0 env0 id acc0).signAttempted = false ∧
        (handleWithdraw cfg0 env0 id acc0).sendAttempted = false) ∧
    (∀ (bal : Int) (nonce : Nat) (gasFeeCap : Int),
      env0.dial ("https://" ++ req0.network) = .ok () →
      env0.hexToECDSA cfg0.privateKeyDefault = .ok () →
      env0.pubkeyCastOk = true →
      env0.balanceAt env0.fromAddress = .ok bal →
      ¬ bal < bigFloatInt (bigFloatMulE18 id (BigFloat.finite (3 / 2))) →
      env0.pendingNonceAt env0.fromAddress = .ok nonce →
      env0.suggestGasPrice = .ok gasFeeCap →
      env0.suggestGasTipCap = .error () →
      (handleWithdraw cfg0 env0 id acc0).outcome =
          Outcome.json 500 false "Failed to get gas tip cap" ∧
        (handleWithdraw cfg0 env0 id acc0).signAttempted = false ∧
        (handleWithdraw cfg0 env0 id acc0).sendAttempted = false) ∧
    (∀ (bal : Int) (nonce : Nat) (gasFeeCap gasTipCap : Int),
      env0.dial ("https://" ++ req0.network) = .ok () →
      env0.hexToECDSA cfg0.privateKeyDefault = .ok () →
      env0.pubkeyCastOk = true →
      env0.balanceAt env0.fromAddress = .ok bal →
      ¬ bal < bigFloatInt (bigFloatMulE18 id (BigFloat.finite (3 / 2))) →
      env0.pendingNonceAt env0.fromAddress = .ok nonce →
      env0.suggestGasPrice = .ok gasFeeCap →
      env0.suggestGasTipCap = .ok gasTipCap →
      env0.networkID = .error () →
      (handleWithdraw cfg0 env0 id acc0).outcome =
          Outcome.json 500 false "Failed to get network ID" ∧
        (handleWithdraw cfg0 env0 id acc0).signAttempted = false ∧
        (handleWithdraw cfg0 env0 id acc0).sendAttempted = false) ∧
    (∀ (bal : Int) (nonce : Nat) (gasFeeCap gasTipCap chainID : Int),
      env0.dial ("https://" ++ req0.network) = .ok () →
      env0.hexToECDSA cfg0.privateKeyDefault = .ok () →
      env0.pubkeyCastOk = true →
      env0.balanceAt env0.fromAddress = .ok bal →
      ¬ bal < bigFloatInt (bigFloatMulE18 id (BigFloat.finite (3 / 2))) →
      env0.pendingNonceAt env0.fromAddress = .ok nonce →
      env0.suggestGasPrice = .ok gasFeeCap →
      env0.suggestGasTipCap = .ok gasTipCap →
      env0.networkID = .ok chainID →
      env0.estimateGas ⟨env0.fromAddress, hexToAddress req0.address, gasFeeCap, gasTipCap,
        bigFloatInt (bigFloatMulE18 id (BigFloat.finite (3 / 2)))⟩ = .error () →
      (handleWithdraw cfg0 env0 id acc0).outcome =
          Outcome.json 500 false "Failed to estimate gas" ∧
        (handleWithdraw cfg0 env0 id acc0).signAttempted = false ∧
        (handleWithdraw cfg0 env0 id acc0).sendAttempted = false) ∧
    (∀ (bal : Int) (nonce : Nat) (gasFeeCap gasTipCap chainID : Int) (gasLimit : Nat)
      (stx : SignedTx),
      env0.dial ("https://" ++ req0.network) = .ok () →
      env0.hexToECDSA cfg0.privateKeyDefault = .ok () →
      env0.pubkeyCastOk = true →
      env0.balanceAt env0.fromAddress = .ok bal →
      ¬ bal < bigFloatInt (bigFloatMulE18 id (BigFloat.finite (3 / 2))) →
      env0.pendingNonceAt env0.fromAddress = .ok nonce →
      env0.suggestGasPrice = .ok gasFeeCap →
      env0.suggestGasTipCap = .ok gasTipCap →
      env0.networkID = .ok chainID →
      env0.estimateGas ⟨env0.fromAddress, hexToAddress req0.address, gasFeeCap, gasTipCap,
        bigFloatInt (bigFloatMulE18 id (BigFloat.finite (3 / 2)))⟩ = .ok gasLimit →
      env0.signTx ⟨chainID, nonce, gasFeeCap, gasTipCap, gasLimit,
        hexToAddress req0.address,
        bigFloatInt (bigFloatMulE18 id (BigFloat.finite (3 / 2)))⟩ = .ok stx →
      env0.sendTransaction (some stx) = .error () →
      (handleWithdraw cfg0 env0 id acc0).outcome = Outcome.json 500 false "Deal failed") ∧
    (∀ (bal : Int) (nonce : Nat) (gasFeeCap gasTipCap chainID : Int) (gasLimit : Nat),
      env0.dial ("https://" ++ req0.network) = .ok () →
      env0.hexToECDSA cfg0.privateKeyDefault = .ok () →
      env0.pubkeyCastOk = true →
      env0.balanceAt env0.fromAddress = .ok bal →
      ¬ bal < bigFloatInt (bigFloatMulE18 id (BigFloat.finite (3 / 2))) →
      env0.pendingNonceAt env0.fromAddress = .ok nonce →
      env0.suggestGasPrice = .ok gasFeeCap →
      env0.suggestGasTipCap = .ok gasTipCap →
      env0.networkID = .ok chainID →
      env0.estimateGas ⟨env0.fromAddress, hexToAddress req0.address, gasFeeCap, gasTipCap,
        bigFloatInt (bigFloatMulE18 id (BigFloat.finite (3 / 2)))⟩ = .ok gasLimit →
      env0.signTx ⟨chainID, nonce, gasFeeCap, gasTipCap, gasLimit,
        hexToAddress req0.address,
        bigFloatInt (bigFloatMulE18 id (BigFloat.finite (3 / 2)))⟩ = .error () →
      env0.sendTransaction none = .error () →
      (handleWithdraw cfg0 env0 id acc0).outcome = Outcome.json 500 false "Deal failed") ∧
    List.Pairwise (fun a b => a ≠ b)
      ["Failed to connect to Mantle client", "Failed to get nonce",
        "Failed to get gas price", "Failed to get gas tip cap", "Failed to get network ID",
        "Failed to estimate gas", "Deal failed"] :=
  claim_C4 cfg0 env0 id acc0 req0 (GoFloat.finite (3 / 2)) (BigFloat.finite (3 / 2))
    rfl (by decide) (by decide) (by decide) (by decide)

/-- Claim C6: the amount pipeline multiplies the parsed decimal by 10^18
and truncates to an integer; for every rounding function that fixes
binary64-representable values (as IEEE 754 round-to-nearest does, every
intermediate value here being representable), "1.5" yields exactly
1500000000000000000 and "0" yields exactly 0. -/
theorem claim_C6 (rnd : ℚ → ℚ)
    (hrnd : ∀ q : ℚ, FloatRepresentable q → rnd q = q) :
    amountToWei rnd "1.5" = some 1500000000000000000 ∧
      amountToWei rnd "0" = some 0 := by
  have h32 : rnd (3 / 2) = 3 / 2 :=
    hrnd _ ⟨3, -1, by decide, by decide, by decide, by decide⟩
  have h18 : rnd ((10 : ℚ) ^ (18 : ℕ)) = (10 : ℚ) ^ (18 : ℕ) :=
    hrnd _ ⟨3814697265625, 18, by decide, by decide, by decide, by decide⟩
  have hmul : (3 / 2 : ℚ) * (10 : ℚ) ^ (18 : ℕ) = 1500000000000000000 := by decide
  have hprod : rnd ((1500000000000000000 : ℚ)) = 1500000000000000000 :=
    hrnd _ ⟨11444091796875, 17, by decide, by decide, by decide, by decide⟩
  have h0 : rnd 0 = 0 := hrnd _ ⟨0, 0, by decide, by decide, by decide, by decide⟩
  constructor
  · have hp : parseGoFloat "1.5" = some (GoFloat.finite (3 / 2)) := by decide
    have hfin : ratTrunc 1500000000000000000 = 1500000000000000000 := by decide
    simp [amountToWei, hp, roundGoFloat, h32, bigNewFloat, bigFloatMulE18, h18, hmul,
      hprod, bigFloatInt, hfin]
  · have hp : parseGoFloat "0" = some (GoFloat.finite 0) := by decide
    have hfin : ratTrunc 0 = 0 := by decide
    simp [amountToWei, hp, roundGoFloat, h0, bigNewFloat, bigFloatMulE18, h18, zero_mul,
      bigFloatInt, hfin]

/-- Witness for C6 with the identity rounding function. -/
theorem claim_C6_witness :
    amountToWei id "1.5" = some 1500000000000000000 ∧ amountToWei id "0" = some 0 :=
  claim_C6 id (fun _ _ => rfl)

end ClaimTheorems

end MantleFaucet
